import Mathlib

/-!
Shallow embedding of `src/components/Map.tsx` (the repository's single source
file) and verification of the specification's claims about it.

The component keeps two pieces of React state: the map object (an `Option`,
`null` until the first effect creates it) and `drawType : string | null`.
`handleDraw(type)` guards on the map being initialized, sets `drawType`,
creates a fresh OpenLayers `Draw` interaction for `type`, adds it to the map,
and registers a `drawend` handler that closes over `type` and the interaction.
The handler logs a mode-dependent result via `console.log`, removes its own
interaction from the map, and resets `drawType` to `null`.

External OpenLayers capabilities (`toLonLat` from `ol/proj`, `getLength` and
`getArea` from `ol/sphere`) are modelled as an oracle bundle `Oracles`: the
measurement fields stand for the geodesic (sphere-aware) functions the file
imports from `ol/sphere`, and `toLonLat` for the projection-to-geographic
conversion. Geometries are coordinate lists in the map's projection;
`console.log(label, value)` emissions are recorded structurally as pairs of
the fixed label string and the data argument.
-/

namespace OtterMap

/-- An OpenLayers `Draw` interaction added to the map by `handleDraw`:
its identity and the geometry-type string it was created with (the
`drawend` closure of this interaction captures exactly this string). -/
structure Interaction where
  id : Nat
  ty : String
deriving DecidableEq, Repr

/-- Data argument of a `console.log` call made by the `drawend` handler:
either the lon/lat coordinate pair of a drawn point or a raw number
(a length or an area). -/
inductive LogArg where
  | coords (lon lat : ℚ)
  | num (v : ℚ)
deriving DecidableEq, Repr

/-- One `console.log(label, value)` emission: the fixed label string passed
as the first argument and the data passed as the second. -/
structure LogEntry where
  msg : String
  arg : LogArg
deriving DecidableEq, Repr

/-- A drawn geometry: its vertex coordinates in the map's projection. -/
abbrev Geom := List (ℚ × ℚ)

/-- State of the mounted component: whether the first effect has created the
map object, the `Draw` interactions currently attached to the map, the React
`drawType` state, the features held by the overlay vector source, a counter
producing identities for freshly created interactions, and the console log. -/
structure CompState where
  mapInit : Bool
  interactions : List Interaction
  drawType : Option String
  features : List Geom
  nextId : Nat
  log : List LogEntry
deriving DecidableEq, Repr

/-- Component state right after mount and the two effects have run:
map created, no interaction armed, `drawType` null, empty overlay. -/
def initState : CompState :=
  { mapInit := true, interactions := [], drawType := none, features := [],
    nextId := 0, log := [] }

/-- Component state before the map-creating effect has run (`map` is null). -/
def preInitState : CompState :=
  { initState with mapInit := false }

/-- External map-engine capabilities used by the `drawend` handler:
`toLonLat` is the projection-to-geographic conversion from `ol/proj`;
`getLength` and `getArea` are the geodesic measurement functions the file
imports from `ol/sphere`. -/
structure Oracles where
  toLonLat : ℚ × ℚ → ℚ × ℚ
  getLength : Geom → ℚ
  getArea : Geom → ℚ

/-- Coordinates of a drawn Point feature: `feature.getGeometry().getCoordinates()`
for a point geometry is its single coordinate pair. -/
def firstCoord (g : Geom) : ℚ × ℚ := g.headI

/-- The `handleDraw(type)` function of the component: a no-op when the map is
not yet initialized (`if (!map) return`); otherwise it sets `drawType` to the
given string, creates a fresh `Draw` interaction for that type and adds it to
the map. Note that no previously armed interaction is removed here. -/
def handleDraw (ty : String) (s : CompState) : CompState :=
  if s.mapInit then
    { s with drawType := some ty,
             interactions := s.interactions ++ [⟨s.nextId, ty⟩],
             nextId := s.nextId + 1 }
  else s

/-- Body of the `drawend` handler registered by `handleDraw`, with `ty` and
`d` the type string and interaction captured by the closure and `g` the
finished feature's geometry. It logs `Point added:` with `toLonLat` of the
coordinates, or `Length:` with `getLength(geometry)`, or `Area:` with
`getArea(geometry)` depending on the captured type string, then removes its
own interaction from the map and resets `drawType` to null. -/
def drawendBody (o : Oracles) (ty : String) (g : Geom) (d : Nat)
    (s : CompState) : CompState :=
  let s1 :=
    if ty = "Point" then
      let c := o.toLonLat (firstCoord g)
      { s with log := s.log ++ [⟨"Point added:", LogArg.coords c.1 c.2⟩] }
    else if ty = "LineString" then
      { s with log := s.log ++ [⟨"Length:", LogArg.num (o.getLength g)⟩] }
    else if ty = "Polygon" then
      { s with log := s.log ++ [⟨"Area:", LogArg.num (o.getArea g)⟩] }
    else s
  { s1 with interactions := s1.interactions.eraseP (fun i => i.id == d),
            drawType := none }

/-- The geometry-type string captured by the armed interaction with identity
`d`, if such an interaction is attached to the map. -/
def tyOf (s : CompState) (d : Nat) : Option String :=
  (s.interactions.find? (fun i => i.id == d)).map Interaction.ty

/-- A `drawend` event firing on the armed interaction with identity `d` for a
finished geometry `g`: the engine appends the finished feature to the overlay
vector source the interaction draws into, then the interaction's registered
handler runs. An identity not attached to the map cannot fire. -/
def fireDrawend (o : Oracles) (d : Nat) (g : Geom) (s : CompState) : CompState :=
  match s.interactions.find? (fun i => i.id == d) with
  | none => s
  | some i => drawendBody o i.ty g d { s with features := s.features ++ [g] }

/-- The map container's cursor style, `drawType ? 'crosshair' : 'default'`,
with JavaScript string truthiness (the empty string is falsy). -/
def cursor (s : CompState) : String :=
  match s.drawType with
  | some t => if t = "" then "default" else "crosshair"
  | none => "default"

/-! Spec-side definitions, written from the specification's words, for
comparison with the behaviour embedded from the source. -/

/-- Number formatting `x.toFixed(2)` as the spec's result strings use it:
two digits after the decimal point, rounding half up (adequate for the
nonnegative sample values used here). -/
def toFixedTwo (q : ℚ) : String :=
  let n : ℤ := ⌊q * 100 + 1 / 2⌋
  let frac := n % 100
  toString (n / 100) ++ "." ++ (if frac < 10 then "0" else "") ++ toString frac

/-- Spec-side FeatureResult for a resolved Point session:
`Point added: placeName (lon, lat)`. -/
def spec_pointSummary (placeName lon lat : String) : String :=
  "Point added: " ++ placeName ++ " (" ++ lon ++ ", " ++ lat ++ ")"

/-- Spec-side FeatureResult for a Point session whose resolution failed:
`Point added: (lon, lat)`. -/
def spec_pointFallback (lon lat : String) : String :=
  "Point added: (" ++ lon ++ ", " ++ lat ++ ")"

/-- Spec-side FeatureResult for a Line session:
`Length: L.toFixed(2) meters`. -/
def spec_lengthSummary (l : ℚ) : String :=
  "Length: " ++ toFixedTwo l ++ " meters"

/-- Spec-side FeatureResult for a Polygon session:
`Area: A.toFixed(2) square meters`. -/
def spec_areaSummary (a : ℚ) : String :=
  "Area: " ++ toFixedTwo a ++ " square meters"

/-! Concrete scenario data used to evaluate the claims. -/

/-- A concrete oracle bundle: identity projection conversion and constant
geodesic measurements, enough to evaluate the handler on sample inputs. -/
def oracleA : Oracles :=
  { toLonLat := id, getLength := fun _ => 1234.5678, getArea := fun _ => 7.5 }

/-- A second oracle bundle, differing from `oracleA` only in the projection
conversion. -/
def oracleB : Oracles :=
  { oracleA with toLonLat := fun c => (c.1 + 1, c.2 + 1) }

/-- Point geometry whose geographic coordinates are Paris. -/
def parisGeom : Geom := [(2.3522, 48.8566)]

/-- Completed Point session at the Paris coordinate: `handleDraw('Point')`
followed by the `drawend` event of the armed interaction. -/
def parisRun : CompState :=
  fireDrawend oracleA 0 parisGeom (handleDraw "Point" initState)

/-- A sample line geometry. -/
def lineGeom : Geom := [(0, 0), (1, 1)]

/-- A second vertex sequence describing the same path as `lineGeom` (an
intermediate vertex added); `oracleA` assigns it the same geodesic length. -/
def lineGeom2 : Geom := [(0, 0), (1, 0), (1, 1)]

/-- Completed Line session: `handleDraw('LineString')` then `drawend`;
under `oracleA` the geodesic length is 1234.5678. -/
def lineRun : CompState :=
  fireDrawend oracleA 0 lineGeom (handleDraw "LineString" initState)

/-- A sample closed polygon geometry. -/
def polyGeom : Geom := [(0, 0), (1, 0), (1, 1), (0, 1), (0, 0)]

/-- Completed Polygon session: `handleDraw('Polygon')` then `drawend`;
under `oracleA` the geodesic area is 7.5. -/
def polyRun : CompState :=
  fireDrawend oracleA 0 polyGeom (handleDraw "Polygon" initState)

/-- Two consecutive `handleDraw('Point')` calls with no completion between
them. -/
def twoDraws : CompState :=
  handleDraw "Point" (handleDraw "Point" initState)

/-- Arming Point, then arming LineString on top of it (the Point interaction
is still attached), giving the staleness scenario of the spec. -/
def staleArmed : CompState :=
  handleDraw "LineString" (handleDraw "Point" initState)

/-- The stale Point interaction's `drawend` firing after the LineString
session was armed. -/
def staleRun : CompState :=
  fireDrawend oracleA 0 parisGeom staleArmed

/-! Helper lemmas about the handler. -/

lemma fireDrawend_eq (o : Oracles) (d : Nat) (g : Geom) (s : CompState)
    (i : Interaction) (h : s.interactions.find? (fun j => j.id == d) = some i) :
    fireDrawend o d g s
      = drawendBody o i.ty g d { s with features := s.features ++ [g] } := by
  unfold fireDrawend
  rw [h]

lemma drawendBody_point (o : Oracles) (g : Geom) (d : Nat) (s : CompState) :
    drawendBody o "Point" g d s =
      { s with log := s.log ++ [⟨"Point added:",
                    LogArg.coords (o.toLonLat (firstCoord g)).1
                      (o.toLonLat (firstCoord g)).2⟩],
               interactions := s.interactions.eraseP (fun i => i.id == d),
               drawType := none } := rfl

lemma drawendBody_line (o : Oracles) (g : Geom) (d : Nat) (s : CompState) :
    drawendBody o "LineString" g d s =
      { s with log := s.log ++ [⟨"Length:", LogArg.num (o.getLength g)⟩],
               interactions := s.interactions.eraseP (fun i => i.id == d),
               drawType := none } := rfl

lemma drawendBody_poly (o : Oracles) (g : Geom) (d : Nat) (s : CompState) :
    drawendBody o "Polygon" g d s =
      { s with log := s.log ++ [⟨"Area:", LogArg.num (o.getArea g)⟩],
               interactions := s.interactions.eraseP (fun i => i.id == d),
               drawType := none } := rfl

lemma drawendBody_frame (o : Oracles) (ty : String) (g : Geom) (d : Nat)
    (s : CompState) :
    (drawendBody o ty g d s).interactions
        = s.interactions.eraseP (fun i => i.id == d) ∧
    (drawendBody o ty g d s).drawType = none ∧
    (drawendBody o ty g d s).features = s.features := by
  unfold drawendBody
  split_ifs <;> exact ⟨rfl, rfl, rfl⟩

lemma mem_eraseP_of_pred_false {α : Type} (p : α → Bool) (b : α) :
    ∀ l : List α, b ∈ l → p b = false → b ∈ l.eraseP p := by
  intro l
  induction l with
  | nil => intro h _; exact absurd h (List.not_mem_nil b)
  | cons a l ih =>
    intro hmem hpb
    by_cases hpa : p a = true
    · rw [List.eraseP_cons_of_pos hpa]
      rcases List.mem_cons.mp hmem with hba | hbl
      · rw [hba, hpa] at hpb; exact absurd hpb (by simp)
      · exact hbl
    · rw [List.eraseP_cons_of_neg hpa]
      rcases List.mem_cons.mp hmem with hba | hbl
      · rw [hba]; exact List.mem_cons_self _ _
      · exact List.mem_cons_of_mem _ (ih hbl hpb)

/-- C1: the claim says that arming a new mode while one is already armed first
retires the previous interaction, so repeated `handleDraw` calls never leave
more than one Draw interaction armed. Evaluating the code at the failing
input: `handleDraw` never removes a previously added interaction, so after
two consecutive `handleDraw('Point')` calls both interactions are still
attached to the map, violating the at-most-one invariant. -/
theorem c1_two_interactions_armed :
    twoDraws.interactions = [⟨0, "Point"⟩, ⟨1, "Point"⟩] ∧
    twoDraws.interactions.length = 2 := by decide

/-- C2: the claim says a completion belonging to a session superseded by a
later `handleDraw` is a silent no-op that never clears the newer session's
armed state and never emits a stale result. Evaluating the code at the
failing input: after arming Point then LineString, the stale Point
interaction's `drawend` still logs its `Point added:` result and
unconditionally resets the shared `drawType` to null, while the newer
LineString interaction is still armed. -/
theorem c2_stale_drawend_clobbers_new_session :
    staleArmed.drawType = some "LineString" ∧
    staleRun.drawType = none ∧
    staleRun.log = [⟨"Point added:", LogArg.coords 2.3522 48.8566⟩] ∧
    (⟨1, "LineString"⟩ : Interaction) ∈ staleRun.interactions := by
  have h1 : staleRun.interactions = [⟨1, "LineString"⟩] := by
    with_unfolding_all rfl
  refine ⟨by decide, by with_unfolding_all rfl, by with_unfolding_all rfl, ?_⟩
  rw [h1]
  decide

/-- C3 counterexample: completing a Point session at (2.3522, 48.8566) logs
the label `Point added:` with the raw coordinate pair; the FeatureResult
string demanded by the claim, `Point added: Paris, France (2.3522, 48.8566)`,
is not produced (there is no place resolver in the code). -/
theorem c3_counterexample :
    parisRun.log = [⟨"Point added:", LogArg.coords 2.3522 48.8566⟩] ∧
    spec_pointSummary "Paris, France" "2.3522" "48.8566"
      = "Point added: Paris, France (2.3522, 48.8566)" ∧
    spec_pointSummary "Paris, France" "2.3522" "48.8566"
      ∉ parisRun.log.map LogEntry.msg := by
  have h1 : parisRun.log = [⟨"Point added:", LogArg.coords 2.3522 48.8566⟩] := by
    with_unfolding_all rfl
  refine ⟨h1, by decide, ?_⟩
  rw [h1]
  decide

/-- C3 amended: completing a session armed in Point mode logs exactly the
label `Point added:` together with the geographic coordinates obtained by
`toLonLat` from the drawn point, and closes the session; no place name is
ever part of the result. -/
theorem c3_point_completion_logs_coordinates_only (o : Oracles)
    (s : CompState) (d : Nat) (g : Geom) (h : tyOf s d = some "Point") :
    (fireDrawend o d g s).log = s.log ++ [⟨"Point added:",
        LogArg.coords (o.toLonLat (firstCoord g)).1
          (o.toLonLat (firstCoord g)).2⟩] ∧
    (fireDrawend o d g s).drawType = none := by
  unfold tyOf at h
  obtain ⟨i, hfind, hty⟩ := Option.map_eq_some'.mp h
  rw [fireDrawend_eq o d g s i hfind, hty, drawendBody_point]
  exact ⟨rfl, rfl⟩

/-- C3 witness: the amended claim at the Paris input. -/
theorem c3_point_completion_logs_coordinates_only_witness :
    (fireDrawend oracleA 0 parisGeom (handleDraw "Point" initState)).log
      = (handleDraw "Point" initState).log ++ [⟨"Point added:",
          LogArg.coords (oracleA.toLonLat (firstCoord parisGeom)).1
            (oracleA.toLonLat (firstCoord parisGeom)).2⟩] ∧
    (fireDrawend oracleA 0 parisGeom (handleDraw "Point" initState)).drawType
      = none :=
  c3_point_completion_logs_coordinates_only oracleA
    (handleDraw "Point" initState) 0 parisGeom (by decide)

/-- C4 counterexample: there is no place resolver in the code, so no
resolver-failure path exists; a completed Point session at (2.3522, 48.8566)
logs the label `Point added:` with the raw coordinate pair, and the fallback
FeatureResult string demanded by the claim,
`Point added: (2.3522, 48.8566)`, is not produced. -/
theorem c4_counterexample :
    parisRun.log.map LogEntry.msg = ["Point added:"] ∧
    spec_pointFallback "2.3522" "48.8566" = "Point added: (2.3522, 48.8566)" ∧
    spec_pointFallback "2.3522" "48.8566" ∉ parisRun.log.map LogEntry.msg := by
  have h1 : parisRun.log = [⟨"Point added:", LogArg.coords 2.3522 48.8566⟩] := by
    with_unfolding_all rfl
  refine ⟨?_, by decide, ?_⟩
  · rw [h1]
    rfl
  · rw [h1]
    decide

/-- C4 amended: the Point branch is total and coordinate-only: every Point
completion synchronously emits exactly one log entry, removes the firing
interaction and clears `drawType`, so nothing can block the session from
closing or crash it (no resolver is invoked at all). -/
theorem c4_point_completion_always_closes (o : Oracles) (s : CompState)
    (d : Nat) (g : Geom) (h : tyOf s d = some "Point") :
    (fireDrawend o d g s).drawType = none ∧
    (fireDrawend o d g s).interactions
      = s.interactions.eraseP (fun i => i.id == d) ∧
    (fireDrawend o d g s).log.length = s.log.length + 1 := by
  unfold tyOf at h
  obtain ⟨i, hfind, hty⟩ := Option.map_eq_some'.mp h
  rw [fireDrawend_eq o d g s i hfind, hty, drawendBody_point]
  exact ⟨rfl, rfl, by simp⟩

/-- C4 witness: the amended claim at the Paris input. -/
theorem c4_point_completion_always_closes_witness :
    (fireDrawend oracleA 0 parisGeom (handleDraw "Point" initState)).drawType
      = none ∧
    (fireDrawend oracleA 0 parisGeom (handleDraw "Point" initState)).interactions
      = (handleDraw "Point" initState).interactions.eraseP (fun i => i.id == 0) ∧
    (fireDrawend oracleA 0 parisGeom (handleDraw "Point" initState)).log.length
      = (handleDraw "Point" initState).log.length + 1 :=
  c4_point_completion_always_closes oracleA (handleDraw "Point" initState) 0
    parisGeom (by decide)

/-- C5 counterexample: completing a Line session whose geodesic length is
1234.5678 logs the label `Length:` with the raw number; the FeatureResult
string demanded by the claim, `Length: 1234.57 meters` (two decimals and a
unit), is not produced. -/
theorem c5_counterexample :
    lineRun.log = [⟨"Length:", LogArg.num 1234.5678⟩] ∧
    spec_lengthSummary 1234.5678 = "Length: 1234.57 meters" ∧
    spec_lengthSummary 1234.5678 ∉ lineRun.log.map LogEntry.msg := by
  have h1 : lineRun.log = [⟨"Length:", LogArg.num 1234.5678⟩] := by
    with_unfolding_all rfl
  have h2 : spec_lengthSummary 1234.5678 = "Length: 1234.57 meters" := by
    with_unfolding_all rfl
  refine ⟨h1, h2, ?_⟩
  rw [h1, h2]
  decide

/-- C5 amended: completing a session armed in LineString mode logs exactly
the label `Length:` with the raw number `getLength(geometry)` returned by the
geodesic length function — no two-decimal formatting and no `meters` suffix —
and any two geometries given the same geodesic length by the measurement
function produce the same logged result. -/
theorem c5_line_completion_logs_raw_length (o : Oracles) (s : CompState)
    (d : Nat) (g g2 : Geom) (h : tyOf s d = some "LineString")
    (hlen : o.getLength g2 = o.getLength g) :
    (fireDrawend o d g s).log
      = s.log ++ [⟨"Length:", LogArg.num (o.getLength g)⟩] ∧
    (fireDrawend o d g2 s).log = (fireDrawend o d g s).log := by
  unfold tyOf at h
  obtain ⟨i, hfind, hty⟩ := Option.map_eq_some'.mp h
  rw [fireDrawend_eq o d g s i hfind, fireDrawend_eq o d g2 s i hfind, hty,
    drawendBody_line, drawendBody_line, hlen]
  exact ⟨rfl, rfl⟩

/-- C5 witness: the amended claim on a sample line and a second vertex
sequence of the same geodesic length. -/
theorem c5_line_completion_logs_raw_length_witness :
    (fireDrawend oracleA 0 lineGeom (handleDraw "LineString" initState)).log
      = (handleDraw "LineString" initState).log
          ++ [⟨"Length:", LogArg.num (oracleA.getLength lineGeom)⟩] ∧
    (fireDrawend oracleA 0 lineGeom2 (handleDraw "LineString" initState)).log
      = (fireDrawend oracleA 0 lineGeom (handleDraw "LineString" initState)).log :=
  c5_line_completion_logs_raw_length oracleA (handleDraw "LineString" initState)
    0 lineGeom lineGeom2 (by decide) rfl

/-- C6 counterexample: completing a Polygon session whose geodesic area is
7.5 logs the label `Area:` with the raw number; the FeatureResult string
demanded by the claim, `Area: 7.50 square meters`, is not produced. -/
theorem c6_counterexample :
    polyRun.log = [⟨"Area:", LogArg.num 7.5⟩] ∧
    spec_areaSummary 7.5 = "Area: 7.50 square meters" ∧
    spec_areaSummary 7.5 ∉ polyRun.log.map LogEntry.msg := by
  have h1 : polyRun.log = [⟨"Area:", LogArg.num 7.5⟩] := by
    with_unfolding_all rfl
  have h2 : spec_areaSummary 7.5 = "Area: 7.50 square meters" := by
    with_unfolding_all rfl
  refine ⟨h1, h2, ?_⟩
  rw [h1, h2]
  decide

/-- C6 amended: completing a session armed in Polygon mode logs exactly the
label `Area:` with the raw number `getArea(geometry)` returned by the
geodesic area function — no two-decimal formatting and no
`square meters` suffix. -/
theorem c6_polygon_completion_logs_raw_area (o : Oracles) (s : CompState)
    (d : Nat) (g : Geom) (h : tyOf s d = some "Polygon") :
    (fireDrawend o d g s).log
      = s.log ++ [⟨"Area:", LogArg.num (o.getArea g)⟩] ∧
    (fireDrawend o d g s).drawType = none := by
  unfold tyOf at h
  obtain ⟨i, hfind, hty⟩ := Option.map_eq_some'.mp h
  rw [fireDrawend_eq o d g s i hfind, hty, drawendBody_poly]
  exact ⟨rfl, rfl⟩

/-- C6 witness: the amended claim on a sample polygon. -/
theorem c6_polygon_completion_logs_raw_area_witness :
    (fireDrawend oracleA 0 polyGeom (handleDraw "Polygon" initState)).log
      = (handleDraw "Polygon" initState).log
          ++ [⟨"Area:", LogArg.num (oracleA.getArea polyGeom)⟩] ∧
    (fireDrawend oracleA 0 polyGeom (handleDraw "Polygon" initState)).drawType
      = none :=
  c6_polygon_completion_logs_raw_area oracleA (handleDraw "Polygon" initState)
    0 polyGeom (by decide)

/-- C7: after every completed geometry event in every mode, the firing Draw
interaction is removed from the map, the shared `drawType` is cleared to null
so the cursor returns to the idle `default` style, and the mode's
FeatureResult is emitted (exactly one new log entry). -/
theorem c7_completion_resets_session (o : Oracles) (s : CompState) (d : Nat)
    (g : Geom) (t : String) (h : tyOf s d = some t)
    (hmode : t = "Point" ∨ t = "LineString" ∨ t = "Polygon") :
    (fireDrawend o d g s).drawType = none ∧
    cursor (fireDrawend o d g s) = "default" ∧
    (fireDrawend o d g s).interactions
      = s.interactions.eraseP (fun i => i.id == d) ∧
    (fireDrawend o d g s).log.length = s.log.length + 1 := by
  unfold tyOf at h
  obtain ⟨i, hfind, hty⟩ := Option.map_eq_some'.mp h
  rw [fireDrawend_eq o d g s i hfind, hty]
  rcases hmode with h1 | h1 | h1 <;> rw [h1]
  · rw [drawendBody_point]; exact ⟨rfl, rfl, rfl, by simp⟩
  · rw [drawendBody_line]; exact ⟨rfl, rfl, rfl, by simp⟩
  · rw [drawendBody_poly]; exact ⟨rfl, rfl, rfl, by simp⟩

/-- C7 witness: the claim at a completed Point session. -/
theorem c7_completion_resets_session_witness :
    (fireDrawend oracleA 0 parisGeom (handleDraw "Point" initState)).drawType
      = none ∧
    cursor (fireDrawend oracleA 0 parisGeom (handleDraw "Point" initState))
      = "default" ∧
    (fireDrawend oracleA 0 parisGeom (handleDraw "Point" initState)).interactions
      = (handleDraw "Point" initState).interactions.eraseP (fun i => i.id == 0) ∧
    (fireDrawend oracleA 0 parisGeom (handleDraw "Point" initState)).log.length
      = (handleDraw "Point" initState).log.length + 1 :=
  c7_completion_resets_session oracleA (handleDraw "Point" initState) 0
    parisGeom "Point" (by decide) (Or.inl rfl)

/-- C8: calling `handleDraw` before the map object exists
(`if (!map) return`) is a no-op: the component state is returned unchanged,
so nothing crashes and no state is modified. -/
theorem c8_handleDraw_noop_before_map_init (ty : String) (s : CompState)
    (h : s.mapInit = false) : handleDraw ty s = s := by
  unfold handleDraw
  rw [h]
  simp

/-- C8 witness: the claim on the pre-initialization state. -/
theorem c8_handleDraw_noop_before_map_init_witness :
    handleDraw "Point" preInitState = preInitState :=
  c8_handleDraw_noop_before_map_init "Point" preInitState rfl

/-- C9: measurement results come exclusively from the sphere-aware functions
applied to the raw drawn geometry: a LineString completion logs exactly
`getLength(geometry)` and a Polygon completion exactly `getArea(geometry)`,
both entirely independent of the `toLonLat` conversion; conversely a Point
completion uses `toLonLat` only to present the coordinates and is entirely
independent of the measurement functions. -/
theorem c9_measurement_geodesic_conversion_display_only (o o2 : Oracles)
    (s : CompState) (d : Nat) (g : Geom) :
    (tyOf s d = some "LineString" →
        (fireDrawend o d g s).log
            = s.log ++ [⟨"Length:", LogArg.num (o.getLength g)⟩] ∧
        (o.getLength = o2.getLength →
            fireDrawend o d g s = fireDrawend o2 d g s)) ∧
    (tyOf s d = some "Polygon" →
        (fireDrawend o d g s).log
            = s.log ++ [⟨"Area:", LogArg.num (o.getArea g)⟩] ∧
        (o.getArea = o2.getArea →
            fireDrawend o d g s = fireDrawend o2 d g s)) ∧
    (tyOf s d = some "Point" →
        (fireDrawend o d g s).log = s.log ++ [⟨"Point added:",
            LogArg.coords (o.toLonLat (firstCoord g)).1
              (o.toLonLat (firstCoord g)).2⟩] ∧
        (o.toLonLat = o2.toLonLat →
            fireDrawend o d g s = fireDrawend o2 d g s)) := by
  refine ⟨fun h => ?_, fun h => ?_, fun h => ?_⟩ <;>
    (unfold tyOf at h; obtain ⟨i, hfind, hty⟩ := Option.map_eq_some'.mp h)
  · rw [fireDrawend_eq o d g s i hfind, fireDrawend_eq o2 d g s i hfind, hty,
      drawendBody_line, drawendBody_line]
    exact ⟨rfl, fun he => by rw [he]⟩
  · rw [fireDrawend_eq o d g s i hfind, fireDrawend_eq o2 d g s i hfind, hty,
      drawendBody_poly, drawendBody_poly]
    exact ⟨rfl, fun he => by rw [he]⟩
  · rw [fireDrawend_eq o d g s i hfind, fireDrawend_eq o2 d g s i hfind, hty,
      drawendBody_point, drawendBody_point]
    exact ⟨rfl, fun he => by rw [he]⟩

/-- C9 witness: a completed LineString session gives the same resulting state
under two oracle bundles that differ only in the `toLonLat` conversion. -/
theorem c9_measurement_geodesic_conversion_display_only_witness :
    fireDrawend oracleA 0 lineGeom (handleDraw "LineString" initState)
      = fireDrawend oracleB 0 lineGeom (handleDraw "LineString" initState) :=
  ((c9_measurement_geodesic_conversion_display_only oracleA oracleB
      (handleDraw "LineString" initState) 0 lineGeom).1 (by decide)).2 rfl

/-- C10: when a `drawend` event fires for an armed interaction, the handler
removes exactly that interaction (the resulting interaction list is the
`eraseP` of the firing identity; any other interaction is still attached, and
exactly one is removed), leaves every feature already in the overlay source
in place (the finished feature is appended), and unconditionally resets the
shared `drawType` to null. -/
theorem c10_drawend_removes_only_firing_interaction (o : Oracles)
    (s : CompState) (d : Nat) (g : Geom) (i j : Interaction)
    (h : s.interactions.find? (fun k => k.id == d) = some i)
    (hj : j ∈ s.interactions) (hne : j.id ≠ d) :
    (fireDrawend o d g s).interactions
      = s.interactions.eraseP (fun k => k.id == d) ∧
    (fireDrawend o d g s).drawType = none ∧
    (fireDrawend o d g s).features = s.features ++ [g] ∧
    j ∈ (fireDrawend o d g s).interactions ∧
    (fireDrawend o d g s).interactions.length + 1 = s.interactions.length := by
  rw [fireDrawend_eq o d g s i h]
  obtain ⟨hint, hdt, hfeat⟩ :=
    drawendBody_frame o i.ty g d { s with features := s.features ++ [g] }
  refine ⟨hint, hdt, hfeat, ?_, ?_⟩
  · rw [hint]
    exact mem_eraseP_of_pred_false _ j _ hj (by simp [hne])
  · rw [hint]
    have hmem : i ∈ s.interactions := List.mem_of_find?_eq_some h
    have hpi : (i.id == d) = true := by simpa using List.find?_some h
    exact List.length_eraseP_add_one hmem hpi

/-- C10 witness: the claim at the state with a Point and a LineString
interaction armed, the Point interaction firing. -/
theorem c10_drawend_removes_only_firing_interaction_witness :
    (fireDrawend oracleA 0 parisGeom staleArmed).interactions
      = staleArmed.interactions.eraseP (fun k => k.id == 0) ∧
    (fireDrawend oracleA 0 parisGeom staleArmed).drawType = none ∧
    (fireDrawend oracleA 0 parisGeom staleArmed).features
      = staleArmed.features ++ [parisGeom] ∧
    (⟨1, "LineString"⟩ : Interaction)
      ∈ (fireDrawend oracleA 0 parisGeom staleArmed).interactions ∧
    (fireDrawend oracleA 0 parisGeom staleArmed).interactions.length + 1
      = staleArmed.interactions.length :=
  c10_drawend_removes_only_firing_interaction oracleA staleArmed 0 parisGeom
    ⟨0, "Point"⟩ ⟨1, "LineString"⟩ (by decide) (by decide) (by decide)

end OtterMap
